import Mathlib

/-!
Verification of the animation and lifecycle glue of the `3js` viewer.

The development shallowly embeds two source files:
* `src/app/three-viewer/engine/world/Fox.ts` — the `AnimationHolder` class
  (a JS object mapping animation names to `AnimationAction` objects, with a
  distinguished `"current"` key) and the parts of `Fox.configureAnimation`
  that set the holder up;
* `src/app/three-viewer/three-viewer.component.ts` — the `ThreeViewerComponent`
  lifecycle hooks `ngOnInit` and `ngOnDestroy`.

JS objects are modelled as association lists; `AnimationAction` objects are
identified by numeric ids with their mutable state held in a separate
association list (the "world"), so that aliasing (two keys bound to the same
action object) is represented faithfully.  A call that would throw in JS
(method access on `undefined`) is modelled by `Except.error` carrying the
kind of error together with the state at the moment of the throw.
-/

namespace ThreeViewer

/-- Kind of runtime failure a `play` call can surface to the caller.
`typeError` is what JS raises for a method call on `undefined`; `notFound`
is the explicit "not found" error the spec asks an implementation to raise.
The embedded code only ever produces `typeError`. -/
inductive JsError where
  | typeError
  | notFound
deriving Repr, DecidableEq

/-- A scheduled weight fade of a three.js `AnimationAction`
(`_scheduleFading(duration, startWeight, endWeight)`).  `fadeOut d` schedules
`⟨d, 1, 0⟩`, `fadeIn d` schedules `⟨d, 0, 1⟩`; a later schedule overwrites an
earlier one (the action owns a single weight interpolant). -/
structure Fade where
  duration : Nat
  startWeight : Nat
  endWeight : Nat
deriving Repr, DecidableEq

/-- Observable state of a three.js `AnimationAction`, as far as the embedded
code reads or writes it. -/
structure ActionState where
  time : Nat
  paused : Bool
  enabled : Bool
  running : Bool
  fade : Option Fade
deriving Repr, DecidableEq

/-- State of a freshly created action (`mixer.clipAction`): time 0, enabled,
not paused, not yet activated, no fade scheduled. -/
def ActionState.initial : ActionState :=
  { time := 0, paused := false, enabled := true, running := false, fade := none }

/-- three.js `AnimationAction.reset()`: clears `paused`, sets `enabled`,
rewinds `time` to zero and stops any fading. -/
def resetAction (a : ActionState) : ActionState :=
  { a with time := 0, paused := false, enabled := true, fade := none }

/-- three.js `AnimationAction.play()`: activates the action in its mixer. -/
def playAction (a : ActionState) : ActionState :=
  { a with running := true }

/-- three.js `AnimationAction.fadeOut(d)`: schedules a weight fade 1 → 0 over
`d` seconds; the action keeps running while it fades. -/
def fadeOutAction (d : Nat) (a : ActionState) : ActionState :=
  { a with fade := some { duration := d, startWeight := 1, endWeight := 0 } }

/-- three.js `AnimationAction.fadeIn(d)`: schedules a weight fade 0 → 1 over
`d` seconds. -/
def fadeInAction (d : Nat) (a : ActionState) : ActionState :=
  { a with fade := some { duration := d, startWeight := 0, endWeight := 1 } }

/-- Lookup of a property on a JS object represented as an association list
(`obj[k]`, `undefined` becoming `none`). -/
def getKey (m : List (String × Nat)) (k : String) : Option Nat :=
  match m with
  | [] => none
  | p :: rest => if p.1 = k then some p.2 else getKey rest k

/-- Property assignment on a JS object (`obj[k] = v`): overwrites the binding
when the key exists, otherwise appends it. -/
def setKey (m : List (String × Nat)) (k : String) (v : Nat) : List (String × Nat) :=
  match m with
  | [] => [(k, v)]
  | p :: rest => if p.1 = k then (k, v) :: rest else p :: setKey rest k v

/-- The mutable states of the action objects, indexed by action id. -/
abbrev World : Type := List (Nat × ActionState)

/-- State of the action object `i` in the world. -/
def worldGet (w : World) (i : Nat) : Option ActionState :=
  match w with
  | [] => none
  | p :: rest => if p.1 = i then some p.2 else worldGet rest i

/-- Mutation of the action object `i` in place (a method call on it). -/
def worldModify (w : World) (i : Nat) (f : ActionState → ActionState) : World :=
  List.map (fun p => if p.1 = i then (p.1, f p.2) else p) w

/-- Registration of a fresh action object (`mixer.clipAction` on a new clip);
an id already present is returned unchanged, mirroring the clipAction cache. -/
def addAction (w : World) (i : Nat) : World :=
  if (worldGet w i).isSome then w else w ++ [(i, ActionState.initial)]

/-- The `AnimationHolder` of `Fox.ts`: the `actions` object maps animation
names (and the literal key `"current"`) to action ids, and `world` holds the
state of each action object. -/
structure AnimationHolder where
  actions : List (String × Nat)
  world : World
deriving Repr, DecidableEq

/-- The single `crossFadeFrom(oldAction, duration, warp)` call a successful
`play` issues, with the identities of the two actions involved. -/
structure PlayCall where
  fadeOutId : Nat
  fadeInId : Nat
  duration : Nat
  warp : Bool
deriving Repr, DecidableEq

/-- `AnimationHolder.play(name)` (Fox.ts lines 34–41):
```
const newAction = this.actions[name];
const oldAction = this.actions['current'];
newAction.reset();
newAction.play();
newAction.crossFadeFrom(oldAction, 1, false);
this.actions['current'] = newAction;
```
When `name` is absent, `newAction` is `undefined` and `newAction.reset()`
throws a TypeError before any mutation.  When `name` is present but
`'current'` is absent, `crossFadeFrom(undefined, 1, false)` throws (its first
step is `oldAction.fadeOut(1)`) after `reset` and `play` have already mutated
the new action but before the `'current'` entry is updated.  The error value
carries the holder state at the moment of the throw. -/
def play (h : AnimationHolder) (name : String) :
    Except (JsError × AnimationHolder) (AnimationHolder × PlayCall) :=
  match getKey h.actions name with
  | none => .error (.typeError, h)
  | some newId =>
    match getKey h.actions "current" with
    | none =>
      let w2 := worldModify (worldModify h.world newId resetAction) newId playAction
      .error (.typeError, { h with world := w2 })
    | some oldId =>
      let w2 := worldModify (worldModify h.world newId resetAction) newId playAction
      let w3 := worldModify w2 oldId (fadeOutAction 1)
      let w4 := worldModify w3 newId (fadeInAction 1)
      .ok ({ actions := setKey h.actions "current" newId, world := w4 },
           { fadeOutId := oldId, fadeInId := newId, duration := 1, warp := false })

/-- The holder-relevant effect of `Fox`'s constructor (line 84–86, a holder
with an empty actions object) followed by `Fox.configureAnimation`
(lines 113–118): create one action per clip, bind the three names, alias
`'current'` to the `'idle'` action and start it playing.  The three action
ids stand for the actions `mixer.clipAction` returns for
`gltf.animations[0]`, `[1]` and `[2]`. -/
def configureAnimation (idleId walkingId runId : Nat) : AnimationHolder :=
  let w0 := addAction (addAction (addAction [] idleId) walkingId) runId
  let a1 := setKey [] "idle" idleId
  let a2 := setKey a1 "walking" walkingId
  let a3 := setKey a2 "running" runId
  match getKey a3 "idle" with
  | none => { actions := a3, world := w0 }
  | some cur =>
    { actions := setKey a3 "current" cur,
      world := worldModify w0 cur playAction }

/-- The spec's invariant on a holder, as a decidable check: the `"current"`
entry is present and aliases an action also bound under some other name. -/
def currentValidB (h : AnimationHolder) : Bool :=
  match getKey h.actions "current" with
  | none => false
  | some i => h.actions.any (fun p => !(p.1 == "current") && (p.2 == i))

/-- The engine instance (`new Engine(canvas)`), identified by the canvas
element it was constructed from. -/
structure Engine where
  canvas : Nat
deriving Repr, DecidableEq

/-- The three consumer closures `ngOnInit` registers, one per service; each
forwards its event into the engine through optional chaining
(`this.engine?.update`, `?.resize`, `?.reactToPointer`). -/
inductive Consumer where
  | engineUpdate
  | engineResize
  | engineReactToPointer
deriving Repr, DecidableEq

/-- State of `ThreeViewerComponent` together with the one consumer slot each
injected service holds (`setConsumer` overwrites it).  `timeLaunches` counts
`timeService.launch()` calls; `destroyCalls` counts `engine.destroy()`
invocations made by the component. -/
structure ComponentState where
  canvasRef : Option Nat
  engine : Option Engine
  timeConsumer : Option Consumer
  sizeConsumer : Option Consumer
  pointerConsumer : Option Consumer
  timeLaunches : Nat
  destroyCalls : Nat
deriving Repr, DecidableEq

/-- A component as Angular constructs it: no canvas resolved yet (here taken
as a parameter, since `@ViewChild` resolves it before `ngOnInit`), engine
undefined, no consumers registered. -/
def freshComponent (canvas : Option Nat) : ComponentState :=
  { canvasRef := canvas, engine := none, timeConsumer := none,
    sizeConsumer := none, pointerConsumer := none,
    timeLaunches := 0, destroyCalls := 0 }

/-- `ThreeViewerComponent.ngOnInit` (three-viewer.component.ts lines 41–53):
throws `'Canvas should be defined to bootstrap the WebGL Engine'` when the
canvas handle is undefined (the error carries the untouched state); otherwise
constructs the engine from the canvas element, registers the time consumer,
launches the tick loop once, and registers the size and pointer consumers. -/
def ngOnInit (s : ComponentState) : Except (String × ComponentState) ComponentState :=
  match s.canvasRef with
  | none => .error ("Canvas should be defined to bootstrap the WebGL Engine", s)
  | some c =>
    .ok { s with
      engine := some { canvas := c },
      timeConsumer := some .engineUpdate,
      timeLaunches := s.timeLaunches + 1,
      sizeConsumer := some .engineResize,
      pointerConsumer := some .engineReactToPointer }

/-- `ThreeViewerComponent.ngOnDestroy` (lines 58–60): `this.engine?.destroy()`.
With no engine it does nothing; with an engine it invokes `destroy` on it and
leaves every field — the engine reference included — as it was. -/
def ngOnDestroy (s : ComponentState) : ComponentState :=
  match s.engine with
  | none => s
  | some _ => { s with destroyCalls := s.destroyCalls + 1 }

/-- State after `ngOnInit`, the throw propagating no further (used to run the
init-then-destroy scenario on concrete components). -/
def runInit (s : ComponentState) : ComponentState :=
  match ngOnInit s with
  | .ok s' => s'
  | .error e => e.2

theorem getKey_setKey_self (m : List (String × Nat)) (k : String) (v : Nat) :
    getKey (setKey m k v) k = some v := by
  induction m with
  | nil => simp [setKey, getKey]
  | cons p rest ih =>
    by_cases hp : p.1 = k
    · simp [setKey, hp, getKey]
    · simp [setKey, hp, getKey, ih]

theorem getKey_setKey_ne (m : List (String × Nat)) (k k' : String) (v : Nat)
    (h : k' ≠ k) : getKey (setKey m k v) k' = getKey m k' := by
  induction m with
  | nil => simp [setKey, getKey, Ne.symm h]
  | cons p rest ih =>
    by_cases hp : p.1 = k
    · simp [setKey, hp, getKey, Ne.symm h]
    · by_cases hq : p.1 = k'
      · simp [setKey, hp, getKey, hq, h]
      · simp [setKey, hp, getKey, hq, ih]

theorem mem_of_getKey (m : List (String × Nat)) (k : String) (v : Nat)
    (h : getKey m k = some v) : (k, v) ∈ m := by
  induction m with
  | nil => simp [getKey] at h
  | cons p rest ih =>
    by_cases hp : p.1 = k
    · simp [getKey, hp] at h
      have : p = (k, v) := by
        cases p
        simp_all
      simp [this]
    · simp [getKey, hp] at h
      exact List.mem_cons_of_mem _ (ih h)

theorem mem_setKey_of_ne (m : List (String × Nat)) (k k' : String) (v v' : Nat)
    (hm : (k', v') ∈ m) (hne : k' ≠ k) : (k', v') ∈ setKey m k v := by
  induction m with
  | nil => simp at hm
  | cons p rest ih =>
    by_cases hp : p.1 = k
    · rcases List.mem_cons.mp hm with he | ht
      · exact absurd (by rw [← he] at hp; exact hp) hne
      · simp [setKey, hp]
        exact Or.inr ht
    · rcases List.mem_cons.mp hm with he | ht
      · simp [setKey, hp, he]
      · simp only [setKey, hp, if_false]
        exact List.mem_cons_of_mem _ (ih ht)

theorem worldGet_worldModify (w : World) (i j : Nat) (f : ActionState → ActionState) :
    worldGet (worldModify w i f) j =
      if j = i then Option.map f (worldGet w j) else worldGet w j := by
  induction w with
  | nil => simp [worldModify, worldGet]
  | cons p rest ih =>
    by_cases hp : p.1 = i
    · subst hp
      by_cases hj : j = p.1
      · subst hj
        simp [worldModify, worldGet]
      · have hj' : ¬ p.1 = j := fun he => hj he.symm
        simpa [worldModify, worldGet, hj, hj'] using ih
    · by_cases hj : p.1 = j
      · subst hj
        simp [worldModify, worldGet, hp]
      · simpa [worldModify, worldGet, hp, hj] using ih

/-- Whether a `play` call returned normally rather than throwing. -/
def isOkB : Except (JsError × AnimationHolder) (AnimationHolder × PlayCall) → Bool
  | .ok _ => true
  | .error _ => false

/-- A holder whose actions object binds `"walking"` but has no `"current"`
entry (the state of any `AnimationHolder` before line 117 of Fox.ts runs). -/
def walkOnlyHolder : AnimationHolder :=
  { actions := [("walking", 0)], world := [(0, ActionState.initial)] }

/-- C1: for every holder whose actions mapping contains both `name` and
`"current"`, `play name` succeeds, resets the action bound to `name` to time
zero, starts it playing, cross-fades it from the action stored under
`"current"` over a fixed 1-second duration without stopping the old action
(the old action's only change is a scheduled 1-second fade-out), and updates
the `"current"` entry to the new action. -/
theorem play_valid_updates_current (h : AnimationHolder) (name : String) (nid oid : Nat)
    (hn : getKey h.actions name = some nid)
    (hc : getKey h.actions "current" = some oid) :
    ∃ h' c, play h name = Except.ok (h', c) ∧
      getKey h'.actions "current" = some nid ∧
      c.fadeOutId = oid ∧ c.fadeInId = nid ∧ c.duration = 1 ∧ c.warp = false ∧
      (∀ a, worldGet h.world nid = some a →
        ∃ a', worldGet h'.world nid = some a' ∧ a'.time = 0 ∧ a'.running = true ∧
          a'.fade = some { duration := 1, startWeight := 0, endWeight := 1 }) ∧
      (nid ≠ oid → ∀ b, worldGet h.world oid = some b →
        worldGet h'.world oid = some (fadeOutAction 1 b)) := by
  have hplay : play h name = Except.ok
      ({ actions := setKey h.actions "current" nid,
         world := worldModify (worldModify (worldModify (worldModify h.world nid resetAction)
           nid playAction) oid (fadeOutAction 1)) nid (fadeInAction 1) },
       { fadeOutId := oid, fadeInId := nid, duration := 1, warp := false }) := by
    unfold play
    rw [hn, hc]
  refine ⟨_, _, hplay, getKey_setKey_self _ _ _, rfl, rfl, rfl, rfl, ?_, ?_⟩
  · intro a ha
    by_cases hno : nid = oid
    · subst hno
      refine ⟨fadeInAction 1 (fadeOutAction 1 (playAction (resetAction a))), ?_, rfl, rfl, rfl⟩
      simp [worldGet_worldModify, ha]
    · refine ⟨fadeInAction 1 (playAction (resetAction a)), ?_, rfl, rfl, rfl⟩
      simp [worldGet_worldModify, ha, hno]
  · intro hne b hb
    have hon : ¬ oid = nid := fun he => hne he.symm
    simp [worldGet_worldModify, hon, hb]

/-- C1 witness: on the Fox holder, `play "walking"` makes `"current"` the
`"walking"` action and cross-fades it from the `"idle"` action. -/
theorem play_valid_updates_current_witness :
    getKey (configureAnimation 0 1 2).actions "walking" = some 1 ∧
    ∃ h' c, play (configureAnimation 0 1 2) "walking" = Except.ok (h', c) ∧
      getKey h'.actions "current" = some 1 ∧
      c.fadeOutId = 0 ∧ c.fadeInId = 1 ∧ c.duration = 1 ∧ c.warp = false ∧
      (∀ a, worldGet (configureAnimation 0 1 2).world 1 = some a →
        ∃ a', worldGet h'.world 1 = some a' ∧ a'.time = 0 ∧ a'.running = true ∧
          a'.fade = some { duration := 1, startWeight := 0, endWeight := 1 }) ∧
      ((1 : Nat) ≠ 0 → ∀ b, worldGet (configureAnimation 0 1 2).world 0 = some b →
        worldGet h'.world 0 = some (fadeOutAction 1 b)) :=
  ⟨by decide,
   play_valid_updates_current (configureAnimation 0 1 2) "walking" 1 0 (by decide) (by decide)⟩

/-- C2 counterexample: on the Fox holder and the absent name `"dance"`,
`play` surfaces a TypeError (the JS crash from `undefined.reset()`), which is
not the "not found" error the claim requires. -/
theorem play_missing_name_no_notFound_cx :
    play (configureAnimation 0 1 2) "dance" =
      Except.error (JsError.typeError, configureAnimation 0 1 2) ∧
    JsError.typeError ≠ JsError.notFound ∧
    getKey (configureAnimation 0 1 2).actions "dance" = none :=
  ⟨rfl, by decide, by decide⟩

/-- C2 amended: for every holder and every name absent from its actions
mapping, `play name` fails — but with the TypeError of a method call on
`undefined`, surfaced to the caller with the holder state untouched, not
with an explicit "not found" error. -/
theorem play_missing_name_typeError (h : AnimationHolder) (name : String)
    (hn : getKey h.actions name = none) :
    play h name = Except.error (JsError.typeError, h) := by
  unfold play
  rw [hn]

/-- C2 amended witness: the failure mode at the concrete absent name. -/
theorem play_missing_name_typeError_witness :
    getKey (configureAnimation 0 1 2).actions "dance" = none ∧
    play (configureAnimation 0 1 2) "dance" =
      Except.error (JsError.typeError, configureAnimation 0 1 2) :=
  ⟨by decide, play_missing_name_typeError (configureAnimation 0 1 2) "dance" (by decide)⟩

/-- C9: when `name` is absent, the throw happens before any mutation — the
holder state carried by the error (the state at the moment of the throw) is
exactly the state before the call. -/
theorem play_missing_name_atomic (h : AnimationHolder) (name : String)
    (hn : getKey h.actions name = none) :
    ∀ e h₂, play h name = Except.error (e, h₂) → h₂ = h := by
  intro e h₂ hp
  have hplay : play h name = Except.error (JsError.typeError, h) := by
    unfold play
    rw [hn]
  rw [hplay] at hp
  injection hp with hpair
  injection hpair with h1 h2
  exact h2.symm

/-- C9 witness: error atomicity at the concrete absent name `"dance"`. -/
theorem play_missing_name_atomic_witness :
    getKey (configureAnimation 0 1 2).actions "dance" = none ∧
    configureAnimation 0 1 2 = configureAnimation 0 1 2 :=
  ⟨by decide,
   play_missing_name_atomic (configureAnimation 0 1 2) "dance" (by decide)
     JsError.typeError (configureAnimation 0 1 2) rfl⟩

/-- C8 counterexample: a holder satisfying only the spec's stated
precondition — `"walking"` is in the mapping — on which `play "walking"`
nevertheless fails: the `"current"` lookup comes back `undefined` and
`crossFadeFrom(undefined, 1, false)` throws. -/
theorem play_fails_despite_name_present_cx :
    (getKey walkOnlyHolder.actions "walking").isSome = true ∧
    isOkB (play walkOnlyHolder "walking") = false := by decide

/-- C8 amended: `play name` performs no failing access exactly when both
`name` and `"current"` are present in the mapping; under that strengthened
precondition every lookup succeeds and the call returns normally. -/
theorem play_ok_with_name_and_current (h : AnimationHolder) (name : String)
    (hn : (getKey h.actions name).isSome = true)
    (hc : (getKey h.actions "current").isSome = true) :
    ∃ r, play h name = Except.ok r := by
  obtain ⟨nid, hn'⟩ := Option.isSome_iff_exists.mp hn
  obtain ⟨oid, hc'⟩ := Option.isSome_iff_exists.mp hc
  refine ⟨({ actions := setKey h.actions "current" nid,
             world := worldModify (worldModify (worldModify (worldModify h.world nid resetAction)
               nid playAction) oid (fadeOutAction 1)) nid (fadeInAction 1) },
           { fadeOutId := oid, fadeInId := nid, duration := 1, warp := false }), ?_⟩
  unfold play
  rw [hn', hc']

/-- C8 amended witness: on the Fox holder both lookups succeed and
`play "idle"` returns normally. -/
theorem play_ok_with_name_and_current_witness :
    (getKey (configureAnimation 0 1 2).actions "idle").isSome = true ∧
    ∃ r, play (configureAnimation 0 1 2) "idle" = Except.ok r :=
  ⟨by decide,
   play_ok_with_name_and_current (configureAnimation 0 1 2) "idle" (by decide) (by decide)⟩

/-- C10: because the active-action pointer lives under the literal key
`"current"` of the same mapping, `play "current"` looks up the same action
twice: the call succeeds, the `"current"` entry is bound to the same action
as before, and the recorded cross-fade has that action fading from itself. -/
theorem play_current_self (h : AnimationHolder) (a : Nat)
    (hc : getKey h.actions "current" = some a) :
    ∃ h' c, play h "current" = Except.ok (h', c) ∧
      getKey h'.actions "current" = some a ∧ c.fadeOutId = a ∧ c.fadeInId = a := by
  have hplay : play h "current" = Except.ok
      ({ actions := setKey h.actions "current" a,
         world := worldModify (worldModify (worldModify (worldModify h.world a resetAction)
           a playAction) a (fadeOutAction 1)) a (fadeInAction 1) },
       { fadeOutId := a, fadeInId := a, duration := 1, warp := false }) := by
    unfold play
    rw [hc]
  exact ⟨_, _, hplay, getKey_setKey_self _ _ _, rfl, rfl⟩

/-- C10 witness: on the Fox holder (`"current"` bound to the idle action),
`play "current"` keeps `"current"` bound to that same action and cross-fades
it from itself. -/
theorem play_current_self_witness :
    getKey (configureAnimation 0 1 2).actions "current" = some 0 ∧
    ∃ h' c, play (configureAnimation 0 1 2) "current" = Except.ok (h', c) ∧
      getKey h'.actions "current" = some 0 ∧ c.fadeOutId = 0 ∧ c.fadeInId = 0 :=
  ⟨by decide, play_current_self (configureAnimation 0 1 2) 0 (by decide)⟩

/-- C5: `Fox.configureAnimation` establishes the invariant that `"current"`
is present and aliases an action also bound under a real animation name,
whatever actions the mixer returned for the three clips; and `play` with any
valid name succeeds and preserves the invariant. -/
theorem current_valid_established_and_preserved :
    (∀ i w r, currentValidB (configureAnimation i w r) = true) ∧
    (∀ h name, currentValidB h = true → (getKey h.actions name).isSome = true →
      ∃ h' c, play h name = Except.ok (h', c) ∧ currentValidB h' = true) := by
  constructor
  · intro i w r
    simp [configureAnimation, setKey, getKey, currentValidB, addAction, worldGet]
  · intro h name hv hsome
    obtain ⟨nid, hn⟩ := Option.isSome_iff_exists.mp hsome
    unfold currentValidB at hv
    cases hcur : getKey h.actions "current" with
    | none =>
      rw [hcur] at hv
      simp at hv
    | some oid =>
      rw [hcur] at hv
      have hv' : h.actions.any (fun p => !(p.1 == "current") && (p.2 == oid)) = true := hv
      have hplay : play h name = Except.ok
          ({ actions := setKey h.actions "current" nid,
             world := worldModify (worldModify (worldModify (worldModify h.world nid resetAction)
               nid playAction) oid (fadeOutAction 1)) nid (fadeInAction 1) },
           { fadeOutId := oid, fadeInId := nid, duration := 1, warp := false }) := by
        unfold play
        rw [hn, hcur]
      refine ⟨_, _, hplay, ?_⟩
      unfold currentValidB
      rw [getKey_setKey_self]
      by_cases hname : name = "current"
      · subst hname
        have hno : nid = oid := Option.some.inj (hn.symm.trans hcur)
        subst hno
        rcases List.any_eq_true.mp hv' with ⟨p, hpmem, hp⟩
        rw [Bool.and_eq_true] at hp
        have hp1 : ¬ p.1 = "current" := by simpa using hp.1
        have hp2 : p.2 = nid := by simpa using hp.2
        refine List.any_eq_true.mpr ⟨p, ?_, ?_⟩
        · exact mem_setKey_of_ne h.actions "current" p.1 nid p.2 hpmem hp1
        · simp [hp1, hp2]
      · have hmem := mem_of_getKey h.actions name nid hn
        refine List.any_eq_true.mpr ⟨(name, nid), ?_, ?_⟩
        · exact mem_setKey_of_ne h.actions "current" name nid nid hmem hname
        · simp [hname]

/-- C5 witness: the invariant holds for the Fox holder and survives
`play "running"` there. -/
theorem current_valid_established_and_preserved_witness :
    currentValidB (configureAnimation 0 1 2) = true ∧
    ∃ h' c, play (configureAnimation 0 1 2) "running" = Except.ok (h', c) ∧
      currentValidB h' = true :=
  ⟨current_valid_established_and_preserved.1 0 1 2,
   current_valid_established_and_preserved.2 (configureAnimation 0 1 2) "running"
     (by decide) (by decide)⟩

/-- C4: with no canvas handle, `ngOnInit` throws the canvas error and leaves
the component exactly as it was — in particular no engine is constructed and
no consumer is registered. -/
theorem ngOnInit_missing_canvas_throws (s : ComponentState)
    (hc : s.canvasRef = none) :
    ngOnInit s =
      Except.error ("Canvas should be defined to bootstrap the WebGL Engine", s) := by
  unfold ngOnInit
  rw [hc]

/-- C4 witness: a fresh component with no canvas; the error state still has
`engine = none` and no consumers. -/
theorem ngOnInit_missing_canvas_throws_witness :
    (freshComponent none).canvasRef = none ∧
    ngOnInit (freshComponent none) =
      Except.error ("Canvas should be defined to bootstrap the WebGL Engine",
        freshComponent none) ∧
    (freshComponent none).engine = none ∧
    (freshComponent none).timeConsumer = none :=
  ⟨rfl, ngOnInit_missing_canvas_throws (freshComponent none) rfl, rfl, rfl⟩

/-- C7: with a canvas handle present, `ngOnInit` returns normally, constructs
the engine from that canvas element, registers the three engine-forwarding
consumers (time tick, resize, pointer) and launches the time source exactly
once. -/
theorem ngOnInit_success_wires_engine (s : ComponentState) (c : Nat)
    (hc : s.canvasRef = some c) :
    ∃ s', ngOnInit s = Except.ok s' ∧
      s'.engine = some { canvas := c } ∧
      s'.timeConsumer = some Consumer.engineUpdate ∧
      s'.sizeConsumer = some Consumer.engineResize ∧
      s'.pointerConsumer = some Consumer.engineReactToPointer ∧
      s'.timeLaunches = s.timeLaunches + 1 := by
  have hok : ngOnInit s = Except.ok
      { s with engine := some { canvas := c },
               timeConsumer := some Consumer.engineUpdate,
               timeLaunches := s.timeLaunches + 1,
               sizeConsumer := some Consumer.engineResize,
               pointerConsumer := some Consumer.engineReactToPointer } := by
    unfold ngOnInit
    rw [hc]
  exact ⟨_, hok, rfl, rfl, rfl, rfl, rfl⟩

/-- C7 witness: initializing a fresh component holding canvas 7. -/
theorem ngOnInit_success_wires_engine_witness :
    (freshComponent (some 7)).canvasRef = some 7 ∧
    ∃ s', ngOnInit (freshComponent (some 7)) = Except.ok s' ∧
      s'.engine = some { canvas := 7 } ∧
      s'.timeConsumer = some Consumer.engineUpdate ∧
      s'.sizeConsumer = some Consumer.engineResize ∧
      s'.pointerConsumer = some Consumer.engineReactToPointer ∧
      s'.timeLaunches = (freshComponent (some 7)).timeLaunches + 1 :=
  ⟨rfl, ngOnInit_success_wires_engine (freshComponent (some 7)) 7 rfl⟩

/-- C3 counterexample: an initialized component (engine present).  Two
`ngOnDestroy` calls invoke `engine.destroy()` twice, because
`this.engine?.destroy()` never clears the `engine` field — the engine is not
released exactly once. -/
theorem ngOnDestroy_twice_double_release_cx :
    (ngOnDestroy (ngOnDestroy (runInit (freshComponent (some 0))))).destroyCalls = 2 ∧
    (2 : Nat) ≠ 1 := by decide

/-- C3 amended: a destroy call that finds no engine is a no-op (that case is
idempotent and error-free), but with an engine present each call invokes
`destroy` again — the engine reference survives the call, so two calls
release twice rather than once. -/
theorem ngOnDestroy_noop_without_engine_else_releases_again (s : ComponentState) :
    (s.engine = none → ngOnDestroy s = s) ∧
    (∀ e, s.engine = some e →
      (ngOnDestroy s).engine = some e ∧
      (ngOnDestroy (ngOnDestroy s)).destroyCalls = s.destroyCalls + 2) := by
  constructor
  · intro hnone
    unfold ngOnDestroy
    rw [hnone]
  · intro e hsome
    have h1 : ngOnDestroy s = { s with destroyCalls := s.destroyCalls + 1 } := by
      unfold ngOnDestroy
      rw [hsome]
    constructor
    · rw [h1]
      exact hsome
    · rw [h1]
      unfold ngOnDestroy
      rw [show ({ s with destroyCalls := s.destroyCalls + 1 } : ComponentState).engine
            = some e from hsome]

/-- C3 amended witness: the no-engine no-op on a fresh component, and the
double release on an initialized one. -/
theorem ngOnDestroy_noop_without_engine_else_releases_again_witness :
    ngOnDestroy (freshComponent none) = freshComponent none ∧
    (ngOnDestroy (ngOnDestroy (runInit (freshComponent (some 3))))).destroyCalls =
      (runInit (freshComponent (some 3))).destroyCalls + 2 :=
  ⟨(ngOnDestroy_noop_without_engine_else_releases_again (freshComponent none)).1 rfl,
   ((ngOnDestroy_noop_without_engine_else_releases_again
       (runInit (freshComponent (some 3)))).2 { canvas := 3 } rfl).2⟩

/-- C6 counterexample: after init and destroy of a concrete component, all
three consumers are still registered with their services — `ngOnDestroy`
unregisters nothing. -/
theorem ngOnDestroy_keeps_consumers_cx :
    (ngOnDestroy (runInit (freshComponent (some 0)))).timeConsumer =
      some Consumer.engineUpdate ∧
    (ngOnDestroy (runInit (freshComponent (some 0)))).sizeConsumer =
      some Consumer.engineResize ∧
    (ngOnDestroy (runInit (freshComponent (some 0)))).pointerConsumer =
      some Consumer.engineReactToPointer := by decide

/-- C6 amended: `ngOnDestroy` only disposes the engine when one exists; it
performs no unregistration, leaving every consumer registration exactly as it
was — consumers registered by `ngOnInit` remain registered after
destruction. -/
theorem ngOnDestroy_unregisters_nothing (s : ComponentState) :
    (ngOnDestroy s).timeConsumer = s.timeConsumer ∧
    (ngOnDestroy s).sizeConsumer = s.sizeConsumer ∧
    (ngOnDestroy s).pointerConsumer = s.pointerConsumer := by
  cases hs : s.engine <;> simp [ngOnDestroy, hs]

end ThreeViewer
